import Mathlib

/-!
Shallow embedding of `src/app.py`, a Streamlit tool that uploads a file to
gofile.io and shows the resulting public link, optionally with an
AI-generated confirmation message.

Python values flowing through the program are modelled by `Json`; Python
exceptions by `PyExc`; each `requests` call by an `HttpOutcome` oracle
passed in as an argument; the OpenAI chat call by a `ChatOutcome` oracle.
The three functions `get_gofile_server`, `upload_to_gofile` and
`ai_confirmation_message`, and the button-press handler inside `main`, are
translated statement by statement, preserving Python's evaluation order,
short-circuiting, truthiness and dynamic-type errors.
-/

/-- JSON/Python values as delivered by `resp.json()` and passed around the
program.  `null` is Python `None`. -/
inductive Json where
  | null
  | bool (b : Bool)
  | num (n : Int)
  | str (s : String)
  | arr (xs : List Json)
  | obj (fields : List (String × Json))

/-- Python `repr` of a value, used by `str()` on lists and dicts. -/
def pyRepr : Json → String
  | .null => "None"
  | .bool true => "True"
  | .bool false => "False"
  | .num n => toString n
  | .str s => "'" ++ s ++ "'"
  | .arr xs => "[" ++ String.intercalate ", " (xs.attach.map (fun x => pyRepr x.1)) ++ "]"
  | .obj fs => "\x7b" ++ String.intercalate ", " (fs.attach.map (fun kv => "'" ++ kv.1.1 ++ "': " ++ pyRepr kv.1.2)) ++ "\x7d"
termination_by j => sizeOf j
decreasing_by
  · have h := List.sizeOf_lt_of_mem x.2
    simp_wf
    omega
  · have h := List.sizeOf_lt_of_mem kv.2
    rcases kv with ⟨⟨k, v⟩, hk⟩
    simp_wf
    simp [Prod.mk.sizeOf_spec] at h
    omega

/-- Python `str()` as used by f-string interpolation: a string interpolates
as itself, other values via their `repr`-like rendering. -/
def pyStr : Json → String
  | .str s => s
  | .null => "None"
  | .bool true => "True"
  | .bool false => "False"
  | .num n => toString n
  | j => pyRepr j

/-- Python `==` between an arbitrary value and a string literal: true only
for an equal string (cross-type `==` is `False`). -/
def jsonEqStr : Json → String → Bool
  | .str s, k => s = k
  | _, _ => false

/-- Python truthiness: `None`, `False`, `0`, `""`, `[]`, and an empty dict
are falsy; everything else is truthy. -/
def truthy : Json → Bool
  | .null => false
  | .bool b => b
  | .num n => n ≠ 0
  | .str s => s ≠ ""
  | .arr xs => ¬ xs.isEmpty
  | .obj fs => ¬ fs.isEmpty

/-- Python `a or b`: the first operand if truthy, else the second. -/
def py_or (a b : Json) : Json :=
  if truthy a then a else b

/-- Key membership in a dict's field list (first binding wins on lookup). -/
def hasKey (fs : List (String × Json)) (k : String) : Bool :=
  (List.lookup k fs).isSome

def charListStartsWith : List Char → List Char → Bool
  | _, [] => true
  | [], _ :: _ => false
  | a :: as, b :: bs => a == b && charListStartsWith as bs

def charListContains : List Char → List Char → Bool
  | [], needle => needle.isEmpty
  | hay@(_ :: t), needle => charListStartsWith hay needle || charListContains t needle

/-- Python substring test `needle in hay` on strings. -/
def strContainsSub (hay needle : String) : Bool :=
  charListContains hay.toList needle.toList

/-- Python exceptions that can arise in this program.  `uploadFailed`
models `RuntimeError(f"Upload failed: \x7bdata\x7d")`, which carries the
parsed response body in its message; the body is kept structurally. -/
inductive PyExc where
  | requestException (msg : String)
  | httpError (code : Nat)
  | jsonDecodeError
  | runtimeError (msg : String)
  | uploadFailed (body : Json)
  | keyError (k : String)
  | typeError
  | attrError
  | indexError
  | openaiError (msg : String)

/-- Python `d.get(k)`: `AttributeError` unless `d` is a dict, else the
value bound to `k`, defaulting to `None`. -/
def dict_get : Json → String → Except PyExc Json
  | .obj fs, k => .ok ((List.lookup k fs).getD .null)
  | _, _ => .error .attrError

/-- Python `k in j` for a string `k`: key membership for dicts, substring
for strings, element membership for lists, `TypeError` otherwise. -/
def py_in (k : String) : Json → Except PyExc Bool
  | .obj fs => .ok (hasKey fs k)
  | .str s => .ok (strContainsSub s k)
  | .arr xs => .ok (xs.any fun j => jsonEqStr j k)
  | _ => .error .typeError

/-- Python `j[k]` for a string `k`: dict lookup (`KeyError` when absent),
`TypeError` on every other type. -/
def py_index : Json → String → Except PyExc Json
  | .obj fs, k =>
    match List.lookup k fs with
    | some v => .ok v
    | none => .error (.keyError k)
  | _, _ => .error .typeError

/-- Outcome of one `requests.get`/`requests.post` call: a raised transport
exception (connection error, timeout, ...), or a response with an HTTP
status code and a body (`none` when `resp.json()` would fail to parse). -/
inductive HttpOutcome where
  | exn (msg : String)
  | response (code : Nat) (body : Option Json)

/-- Status codes for which `resp.raise_for_status()` raises `HTTPError`:
4xx and 5xx. -/
def statusRaises (code : Nat) : Bool :=
  400 ≤ code && code < 600

/-- Timeout given to `requests.get("https://api.gofile.io/getServer", timeout=15)`. -/
def discovery_timeout : Nat := 15

/-- Timeout given to `requests.post(..., timeout=120)` in `upload_to_gofile`. -/
def upload_timeout : Nat := 120

/-- A GET request as issued by the discovery call. -/
structure GetRequest where
  url : String
  timeout : Nat
deriving DecidableEq

/-- The discovery request `get_gofile_server` issues. -/
def discovery_request : GetRequest :=
  { url := "https://api.gofile.io/getServer", timeout := discovery_timeout }

/-- Error message of the `RuntimeError` raised by `get_gofile_server`. -/
def gofileServerErrMsg : String :=
  "Failed to retrieve upload server from gofile.io."

/-- Embedding of `get_gofile_server` (src/app.py lines 10-16).  `disc` is
the outcome of the GET to the discovery endpoint.  The Python code is
`resp.raise_for_status()`, `data = resp.json()`, then
`if data.get("status") != "ok" or "data" not in data or "server" not in data["data"]:
raise RuntimeError(...)`, else `return data["data"]["server"]`, with
Python's left-to-right short-circuit evaluation of the `or` chain. -/
def get_gofile_server (disc : HttpOutcome) : Except PyExc Json :=
  match disc with
  | .exn m => .error (.requestException m)
  | .response code body =>
    if statusRaises code then .error (.httpError code)
    else
      match body with
      | none => .error .jsonDecodeError
      | some data =>
        match dict_get data "status" with
        | .error e => .error e
        | .ok status =>
          if ¬ jsonEqStr status "ok" then .error (.runtimeError gofileServerErrMsg)
          else
            match py_in "data" data with
            | .error e => .error e
            | .ok hasData =>
              if ¬ hasData then .error (.runtimeError gofileServerErrMsg)
              else
                match py_index data "data" with
                | .error e => .error e
                | .ok d =>
                  match py_in "server" d with
                  | .error e => .error e
                  | .ok hasServer =>
                    if ¬ hasServer then .error (.runtimeError gofileServerErrMsg)
                    else
                      match py_index data "data" with
                      | .error e => .error e
                      | .ok d2 => py_index d2 "server"

/-- The multipart-form POST issued by `upload_to_gofile`:
`requests.post(f"https://\x7bserver\x7d.gofile.io/uploadFile", files=\x7b"file": (file_name, file_bytes)\x7d, timeout=120)`. -/
structure PostRequest where
  url : String
  fileField : String × (String × List Nat)
  timeout : Nat
deriving DecidableEq

/-- The dictionary `upload_to_gofile` returns on success: the values of
`result.get("downloadPage")`, `result.get("directLink")`,
`result.get("fileId")` (each `Json.null` when the key is absent). -/
structure UploadResult where
  downloadPage : Json
  directLink : Json
  fileId : Json

/-- Handling of the upload response inside `upload_to_gofile`
(src/app.py lines 31-42): `resp.raise_for_status()`, `data = resp.json()`,
`if data.get("status") != "ok" or "data" not in data: raise
RuntimeError(f"Upload failed: \x7bdata\x7d")`, then `result = data["data"]`
and the three `result.get(...)` extractions. -/
def uploadBody (upl : HttpOutcome) : Except PyExc UploadResult :=
  match upl with
  | .exn m => .error (.requestException m)
  | .response code body =>
    if statusRaises code then .error (.httpError code)
    else
      match body with
      | none => .error .jsonDecodeError
      | some data =>
        match dict_get data "status" with
        | .error e => .error e
        | .ok status =>
          if ¬ jsonEqStr status "ok" then .error (.uploadFailed data)
          else
            match py_in "data" data with
            | .error e => .error e
            | .ok hasData =>
              if ¬ hasData then .error (.uploadFailed data)
              else
                match py_index data "data" with
                | .error e => .error e
                | .ok result =>
                  match dict_get result "downloadPage" with
                  | .error e => .error e
                  | .ok dp =>
                    match dict_get result "directLink" with
                    | .error e => .error e
                    | .ok dl =>
                      match dict_get result "fileId" with
                      | .error e => .error e
                      | .ok fid => .ok ⟨dp, dl, fid⟩

/-- Embedding of `upload_to_gofile` (src/app.py lines 19-42).  Returns the
function's result together with the POST request it issued (`none` when
control never reached `requests.post`, i.e. when discovery raised). -/
def upload_to_gofile (disc upl : HttpOutcome) (file_name : String) (file_bytes : List Nat) :
    Except PyExc UploadResult × Option PostRequest :=
  match get_gofile_server disc with
  | .error e => (.error e, none)
  | .ok server =>
    let req : PostRequest :=
      { url := "https://" ++ pyStr server ++ ".gofile.io/uploadFile"
        fileField := ("file", (file_name, file_bytes))
        timeout := upload_timeout }
    (uploadBody upl, some req)

/-- One message of the chat request sent to the OpenAI endpoint. -/
structure ChatMessage where
  role : String
  content : String
deriving DecidableEq

/-- One element of `response.choices`; `content` is `none` when
`message.content` is Python `None`. -/
structure ChatChoice where
  content : Option String

/-- Outcome of `client.chat.completions.create(...)`: a raised exception
or a response with its list of choices. -/
inductive ChatOutcome where
  | exn (msg : String)
  | ok (choices : List ChatChoice)

/-- The fixed two-message prompt built by `ai_confirmation_message`. -/
def chat_messages (link filename : String) : List ChatMessage :=
  [{ role := "system", content := "You are a helpful assistant." },
   { role := "user",
     content := "A pitch deck file named '" ++ filename ++ "' has been uploaded and converted " ++
       "to a public link. Produce a concise confirmation message for the user " ++
       "with the link prominently shown. Use a friendly tone.\n\nLink: " ++ link }]

/-- The fallback string returned by the `except` handler of
`ai_confirmation_message`. -/
def fallback_message (link : String) : String :=
  "Your pitch deck is ready! Share this global link: " ++ link

/-- Python truthiness of `os.getenv("OPENAI_API_KEY")`: falsy when the
variable is unset or set to the empty string. -/
def envTruthy : Option String → Bool
  | none => false
  | some s => s ≠ ""

/-- The expression `response.choices[0].message.content.strip()`:
`IndexError` on an empty choice list, `AttributeError` when the content is
`None`, else the trimmed content. -/
def chatExtract : List ChatChoice → Except PyExc String
  | [] => .error .indexError
  | c :: _ =>
    match c.content with
    | none => .error .attrError
    | some s => .ok s.trim

/-- The `try` block of `ai_confirmation_message` (src/app.py lines 50-69):
raises `RuntimeError` when the key is absent or falsy, otherwise performs
the chat call.  The second component records whether the network call was
attempted. -/
def ai_try_body (env : Option String) (out : ChatOutcome) : Except PyExc String × Bool :=
  if envTruthy env = false then (.error (.runtimeError "OPENAI_API_KEY not set."), false)
  else
    match out with
    | .exn m => (.error (.openaiError m), true)
    | .ok choices => (chatExtract choices, true)

/-- Embedding of `ai_confirmation_message` (src/app.py lines 45-71): the
`try` body wrapped in `except Exception: return f"Your pitch deck is
ready! Share this global link: \x7blink\x7d"`.  `env` is the value of
`os.getenv("OPENAI_API_KEY")`, `api` the chat-call oracle.  The result is
an `Except` so that the absence of an escaping exception is a theorem, not
a typing accident; the Bool records whether the network call was made. -/
def ai_confirmation_message (env : Option String) (api : List ChatMessage → ChatOutcome)
    (link filename : String) : Except PyExc String × Bool :=
  match ai_try_body env (api (chat_messages link filename)) with
  | (.ok s, c) => (.ok s, c)
  | (.error _, c) => (.ok (fallback_message link), c)

/-- What the UI renders at the end of the button handler: the link (shown
and pre-filled in the copy field) plus the confirmation message, or
`st.error` with the caught exception. -/
inductive UIOutcome where
  | success (shownLink : Json) (copyValue : Json) (message : String)
  | failure (err : PyExc)

/-- Observable trace of one button press: the rendered outcome, the upload
POST issued (if any), whether `ai_confirmation_message` was invoked, and
whether the chat network call inside it was attempted. -/
structure ActionTrace where
  outcome : UIOutcome
  uploadRequest : Option PostRequest
  composerInvoked : Bool
  chatCalled : Bool

/-- Embedding of the `try` block of the button handler in `main`
(src/app.py lines 104-125): call `upload_to_gofile`, compute
`link = result.get("downloadPage") or result.get("directLink")`, raise
when `not link`, render the link and the composed message; every raised
exception is caught by the `except` and rendered with `st.error`. -/
def main_action (disc upl : HttpOutcome) (env : Option String)
    (api : List ChatMessage → ChatOutcome) (filename : String) (fileBytes : List Nat) :
    ActionTrace :=
  match upload_to_gofile disc upl filename fileBytes with
  | (.error e, req) => ⟨.failure e, req, false, false⟩
  | (.ok result, req) =>
    let link := py_or result.downloadPage result.directLink
    if truthy link then
      match ai_confirmation_message env api (pyStr link) filename with
      | (.ok msg, called) => ⟨.success link link msg, req, true, called⟩
      | (.error e, called) => ⟨.failure e, req, true, called⟩
    else
      ⟨.failure (.runtimeError "Failed to obtain a link from the hosting service."), req, false, false⟩

/-- Spec-side success condition for discovery, written from the spec's
words for the raises-iff claim: the HTTP call returned (no transport
error), the status code is not an error code, the body parses to an object
whose `status` field is the sentinel `"ok"` and whose `data` field is an
object containing a `server` key. -/
def discoverySucceedsSpec : HttpOutcome → Bool
  | .exn _ => false
  | .response code body =>
    !statusRaises code &&
    match body with
    | some (Json.obj fs) =>
      (match List.lookup "status" fs with
       | some (Json.str s) => s == "ok"
       | _ => false) &&
      (match List.lookup "data" fs with
       | some (Json.obj ds) => (List.lookup "server" ds).isSome
       | _ => false)
    | _ => false

/-- Spec-side extraction of the nested `data.server` field from a
discovery response, for the raises-iff claim. -/
def serverFieldSpec : HttpOutcome → Option Json
  | .response _ (some (Json.obj fs)) =>
    (match List.lookup "data" fs with
     | some (Json.obj ds) => List.lookup "server" ds
     | _ => none)
  | _ => none

/-- The link rendered by a UI outcome, if any. -/
def shownLinkOf : UIOutcome → Option Json
  | .success l _ _ => some l
  | .failure _ => none

/-- A well-formed discovery response selecting server `srv1`. -/
def discOkSrv1 : HttpOutcome :=
  HttpOutcome.response 200 (some (Json.obj
    [("status", Json.str "ok"), ("data", Json.obj [("server", Json.str "srv1")])]))

/-- An upload response whose `downloadPage` is present but empty and whose
`directLink` is non-empty. -/
def uplEmptyDP : HttpOutcome :=
  HttpOutcome.response 200 (some (Json.obj
    [("status", Json.str "ok"),
     ("data", Json.obj
       [("downloadPage", Json.str ""),
        ("directLink", Json.str "https://gofile.io/d/abc123")])]))

/-- An upload response carrying a non-success status sentinel. -/
def uplStatusErr : HttpOutcome :=
  HttpOutcome.response 200 (some (Json.obj [("status", Json.str "error")]))

/-- A fully successful upload response with a non-empty `downloadPage`. -/
def uplDPOnly : HttpOutcome :=
  HttpOutcome.response 200 (some (Json.obj
    [("status", Json.str "ok"),
     ("data", Json.obj [("downloadPage", Json.str "https://gofile.io/d/abc123")])]))

theorem charListStartsWith_refl (l : List Char) : charListStartsWith l l = true := by
  induction l with
  | nil => rfl
  | cons a as ih => simp [charListStartsWith, ih]

theorem charListContains_append (a b : List Char) : charListContains (a ++ b) b = true := by
  induction a with
  | nil =>
    cases b with
    | nil => rfl
    | cons x xs => simp [charListContains, charListStartsWith_refl]
  | cons x xs ih => simp [charListContains, ih]

theorem strContainsSub_append (a b : String) : strContainsSub (a ++ b) b = true := by
  have h : (a ++ b).toList = a.toList ++ b.toList := by
    simp [String.toList]
  simp [strContainsSub, h, charListContains_append]

theorem ai_confirmation_isOk (env : Option String) (api : List ChatMessage → ChatOutcome)
    (link filename : String) :
    ∃ s c, ai_confirmation_message env api link filename = (Except.ok s, c) := by
  cases h : ai_try_body env (api (chat_messages link filename)) with
  | mk res c =>
    cases res with
    | ok s => exact ⟨s, c, by simp [ai_confirmation_message, h]⟩
    | error e => exact ⟨fallback_message link, c, by simp [ai_confirmation_message, h]⟩

/-- C8: the fixed timeout bound of the upload POST (120 s) strictly
exceeds the timeout bound of the discovery GET (15 s). -/
theorem upload_timeout_exceeds_discovery_timeout :
    discovery_request.timeout < upload_timeout ∧ discovery_timeout < upload_timeout := by
  constructor <;> decide

/-- C3: with the credential absent from the environment,
`ai_confirmation_message` returns exactly the fallback string (the literal
template with the link substituted) and never attempts the chat network
call, for any non-empty link and filename. -/
theorem composer_absent_key_exact_fallback (api : List ChatMessage → ChatOutcome)
    (link filename : String) (_hl : link ≠ "") (_hf : filename ≠ "") :
    ai_confirmation_message none api link filename =
      (Except.ok ("Your pitch deck is ready! Share this global link: " ++ link), false) := rfl

theorem composer_absent_key_exact_fallback_witness :
    ai_confirmation_message none (fun _ => ChatOutcome.exn "boom") "https://gofile.io/d/abc123" "deck.pdf" =
      (Except.ok ("Your pitch deck is ready! Share this global link: " ++ "https://gofile.io/d/abc123"), false) :=
  composer_absent_key_exact_fallback (fun _ => ChatOutcome.exn "boom")
    "https://gofile.io/d/abc123" "deck.pdf" (by decide) (by decide)

/-- C2: `ai_confirmation_message` never fails outward: its result is
always `Except.ok`; whenever the `try` body raises (missing credential,
chat-call failure, malformed response), the result is exactly the fallback
string, which contains the link as a substring. -/
theorem composer_never_fails (env : Option String) (api : List ChatMessage → ChatOutcome)
    (link filename : String) :
    (∃ s, (ai_confirmation_message env api link filename).1 = Except.ok s) ∧
    (∀ e, (ai_try_body env (api (chat_messages link filename))).1 = Except.error e →
      (ai_confirmation_message env api link filename).1 = Except.ok (fallback_message link)) ∧
    strContainsSub (fallback_message link) link = true := by
  refine ⟨?_, ?_, ?_⟩
  · obtain ⟨s, c, hc⟩ := ai_confirmation_isOk env api link filename
    exact ⟨s, by simp [hc]⟩
  · intro e he
    cases h : ai_try_body env (api (chat_messages link filename)) with
    | mk res c =>
      cases res with
      | ok s => rw [h] at he; simp at he
      | error e2 => simp [ai_confirmation_message, h]
  · exact strContainsSub_append "Your pitch deck is ready! Share this global link: " link

theorem composer_never_fails_witness :
    (ai_confirmation_message none (fun _ => ChatOutcome.exn "down") "https://x" "f.txt").1 =
      Except.ok (fallback_message "https://x") :=
  (composer_never_fails none (fun _ => ChatOutcome.exn "down") "https://x" "f.txt").2.1
    (PyExc.runtimeError "OPENAI_API_KEY not set.") rfl

/-- C4: when discovery fails (any error from `get_gofile_server`), the
upload operation short-circuits with that error and the upload POST is
never issued. -/
theorem discovery_failure_short_circuits (disc upl : HttpOutcome) (fn : String)
    (bytes : List Nat) (e : PyExc) (h : get_gofile_server disc = Except.error e) :
    upload_to_gofile disc upl fn bytes = (Except.error e, none) := by
  simp [upload_to_gofile, h]

theorem discovery_failure_short_circuits_witness :
    upload_to_gofile (HttpOutcome.exn "timeout") (HttpOutcome.response 200 none) "deck.pdf" [1, 2] =
      (Except.error (PyExc.requestException "timeout"), none) :=
  discovery_failure_short_circuits (HttpOutcome.exn "timeout") (HttpOutcome.response 200 none)
    "deck.pdf" [1, 2] (PyExc.requestException "timeout") rfl

/-- C10: even with a 2xx upload response whose status field is the success
sentinel, a missing top-level `data` key makes `upload_to_gofile` raise
`RuntimeError("Upload failed: ...")` carrying the body. -/
theorem upload_malformed_success_body_errors (disc upl : HttpOutcome) (fn : String)
    (bytes : List Nat) (server : Json) (code : Nat) (fs : List (String × Json))
    (hdisc : get_gofile_server disc = Except.ok server)
    (hupl : upl = HttpOutcome.response code (some (Json.obj fs)))
    (h2xx : 200 ≤ code ∧ code < 300)
    (hok : List.lookup "status" fs = some (Json.str "ok"))
    (hnodata : List.lookup "data" fs = none) :
    (upload_to_gofile disc upl fn bytes).1 = Except.error (PyExc.uploadFailed (Json.obj fs)) := by
  subst hupl
  have hnr : statusRaises code = false := by
    simp [statusRaises]
    omega
  simp [upload_to_gofile, hdisc, uploadBody, hnr, dict_get, hok, jsonEqStr, py_in, hasKey, hnodata]

theorem upload_malformed_success_body_errors_witness :
    (upload_to_gofile discOkSrv1
        (HttpOutcome.response 200 (some (Json.obj [("status", Json.str "ok")])))
        "deck.pdf" [1]).1 =
      Except.error (PyExc.uploadFailed (Json.obj [("status", Json.str "ok")])) :=
  upload_malformed_success_body_errors discOkSrv1
    (HttpOutcome.response 200 (some (Json.obj [("status", Json.str "ok")])))
    "deck.pdf" [1] (Json.str "srv1") 200 [("status", Json.str "ok")]
    rfl rfl (by decide) rfl rfl

/-- C6 counterexample: the upload POST goes to
`https://srv1.gofile.io/uploadFile`, not to `https://srv1/uploadFile` as
the claim states for server `srv1`. -/
theorem upload_url_appends_gofile_domain :
    ((upload_to_gofile discOkSrv1 (HttpOutcome.response 200 none) "deck.pdf" [1]).2.map
        PostRequest.url) = some "https://srv1.gofile.io/uploadFile" ∧
    "https://srv1.gofile.io/uploadFile" ≠ "https://srv1/uploadFile" := by
  exact ⟨rfl, by decide⟩

/-- C6 (amended): for every upload whose discovery returned server name
`s`, exactly one multipart-form POST is issued, with field
`"file" = (filename, bytes)`, the long timeout, and URL
`https://` ++ s ++ `.gofile.io/uploadFile`. -/
theorem upload_request_shape (disc upl : HttpOutcome) (fn : String) (bytes : List Nat)
    (s : String) (h : get_gofile_server disc = Except.ok (Json.str s)) :
    (upload_to_gofile disc upl fn bytes).2 =
      some { url := "https://" ++ s ++ ".gofile.io/uploadFile"
             fileField := ("file", (fn, bytes))
             timeout := upload_timeout } := by
  simp [upload_to_gofile, h, pyStr]

theorem upload_request_shape_witness :
    (upload_to_gofile discOkSrv1 (HttpOutcome.response 200 none) "deck.pdf" [1, 2]).2 =
      some { url := "https://" ++ "srv1" ++ ".gofile.io/uploadFile"
             fileField := ("file", ("deck.pdf", [1, 2]))
             timeout := upload_timeout } :=
  upload_request_shape discOkSrv1 (HttpOutcome.response 200 none) "deck.pdf" [1, 2] "srv1" rfl

/-- C1 counterexample: in a run where both HTTP calls succeed and the
upload result's `downloadPage` is present (not `None`) but equal to the
empty string, the UI shows `directLink`, not `downloadPage` — link
selection is not by presence. -/
theorem link_by_presence_fails :
    (upload_to_gofile discOkSrv1 uplEmptyDP "deck.pdf" [1]).1 =
      Except.ok ⟨Json.str "", Json.str "https://gofile.io/d/abc123", Json.null⟩ ∧
    Json.str "" ≠ Json.null ∧
    shownLinkOf (main_action discOkSrv1 uplEmptyDP none (fun _ => ChatOutcome.exn "e")
        "deck.pdf" [1]).outcome = some (Json.str "https://gofile.io/d/abc123") ∧
    Json.str "https://gofile.io/d/abc123" ≠ Json.str "" := by
  refine ⟨rfl, by simp, rfl, by simp⟩

/-- C1 (amended): for every successful discovery+upload sequence, the link
shown to the UI equals `downloadPage` if it is truthy (present and
non-empty), else `directLink` if that is truthy; if neither is truthy, the
action reports failure even though both HTTP calls succeeded. -/
theorem link_selection_by_truthiness (disc upl : HttpOutcome) (env : Option String)
    (api : List ChatMessage → ChatOutcome) (fn : String) (bytes : List Nat)
    (r : UploadResult) (req : Option PostRequest)
    (h : upload_to_gofile disc upl fn bytes = (Except.ok r, req)) :
    (truthy r.downloadPage = true →
      shownLinkOf (main_action disc upl env api fn bytes).outcome = some r.downloadPage) ∧
    (truthy r.downloadPage = false → truthy r.directLink = true →
      shownLinkOf (main_action disc upl env api fn bytes).outcome = some r.directLink) ∧
    (truthy r.downloadPage = false → truthy r.directLink = false →
      (main_action disc upl env api fn bytes).outcome =
        UIOutcome.failure (PyExc.runtimeError "Failed to obtain a link from the hosting service.")) := by
  refine ⟨?_, ?_, ?_⟩
  · intro hdp
    have hlink : py_or r.downloadPage r.directLink = r.downloadPage := by simp [py_or, hdp]
    obtain ⟨s, c, hc⟩ := ai_confirmation_isOk env api (pyStr r.downloadPage) fn
    simp [main_action, h, hlink, hdp, hc, shownLinkOf]
  · intro hdp hdl
    have hlink : py_or r.downloadPage r.directLink = r.directLink := by simp [py_or, hdp]
    obtain ⟨s, c, hc⟩ := ai_confirmation_isOk env api (pyStr r.directLink) fn
    simp [main_action, h, hlink, hdl, hc, shownLinkOf]
  · intro hdp hdl
    have hlink : py_or r.downloadPage r.directLink = r.directLink := by simp [py_or, hdp]
    simp [main_action, h, hlink, hdl]

theorem link_selection_by_truthiness_witness :
    shownLinkOf (main_action discOkSrv1 uplDPOnly none (fun _ => ChatOutcome.exn "e")
        "deck.pdf" [1]).outcome = some (Json.str "https://gofile.io/d/abc123") :=
  (link_selection_by_truthiness discOkSrv1 uplDPOnly none (fun _ => ChatOutcome.exn "e")
      "deck.pdf" [1]
      ⟨Json.str "https://gofile.io/d/abc123", Json.null, Json.null⟩
      (some { url := "https://srv1.gofile.io/uploadFile"
              fileField := ("file", ("deck.pdf", [1]))
              timeout := upload_timeout })
      rfl).1 rfl

/-- C9: link selection in the UI layer is by truthiness, not mere
presence: a `downloadPage` that is present but falsy (for instance the
empty string) is passed over in favour of `directLink`, and when both are
falsy (absent, `None`, or empty) the handler raises and the action reports
failure; the empty string and `None` are both falsy. -/
theorem link_truthiness_not_presence (disc upl : HttpOutcome) (env : Option String)
    (api : List ChatMessage → ChatOutcome) (fn : String) (bytes : List Nat)
    (r : UploadResult) (req : Option PostRequest)
    (h : upload_to_gofile disc upl fn bytes = (Except.ok r, req)) :
    (r.downloadPage ≠ Json.null → truthy r.downloadPage = false → truthy r.directLink = true →
      shownLinkOf (main_action disc upl env api fn bytes).outcome = some r.directLink) ∧
    (truthy r.downloadPage = false → truthy r.directLink = false →
      (main_action disc upl env api fn bytes).outcome =
        UIOutcome.failure (PyExc.runtimeError "Failed to obtain a link from the hosting service.")) ∧
    truthy (Json.str "") = false ∧ truthy Json.null = false := by
  refine ⟨?_, ?_, rfl, rfl⟩
  · intro hpres hdp hdl
    have hlink : py_or r.downloadPage r.directLink = r.directLink := by simp [py_or, hdp]
    obtain ⟨s, c, hc⟩ := ai_confirmation_isOk env api (pyStr r.directLink) fn
    simp [main_action, h, hlink, hdl, hc, shownLinkOf]
  · intro hdp hdl
    have hlink : py_or r.downloadPage r.directLink = r.directLink := by simp [py_or, hdp]
    simp [main_action, h, hlink, hdl]

theorem link_truthiness_not_presence_witness :
    shownLinkOf (main_action discOkSrv1 uplEmptyDP none (fun _ => ChatOutcome.exn "e")
        "deck.pdf" [1]).outcome = some (Json.str "https://gofile.io/d/abc123") :=
  (link_truthiness_not_presence discOkSrv1 uplEmptyDP none (fun _ => ChatOutcome.exn "e")
      "deck.pdf" [1]
      ⟨Json.str "", Json.str "https://gofile.io/d/abc123", Json.null⟩
      (some { url := "https://srv1.gofile.io/uploadFile"
              fileField := ("file", ("deck.pdf", [1]))
              timeout := upload_timeout })
      rfl).1 (by simp) rfl rfl

/-- C5 counterexample: a non-2xx upload response (HTTP 500 with body
`"oops"`) makes the Uploader signal `HTTPError`, which does not carry the
response body, contradicting the claim that every upload failure's error
carries the raw response body; the error is still surfaced to the user. -/
theorem non2xx_upload_error_lacks_body :
    uploadBody (HttpOutcome.response 500 (some (Json.str "oops"))) =
      Except.error (PyExc.httpError 500) ∧
    PyExc.httpError 500 ≠ PyExc.uploadFailed (Json.str "oops") ∧
    (main_action discOkSrv1 (HttpOutcome.response 500 (some (Json.str "oops"))) none
        (fun _ => ChatOutcome.exn "e") "deck.pdf" [1]).outcome =
      UIOutcome.failure (PyExc.httpError 500) := by
  refine ⟨rfl, by simp, rfl⟩

/-- C5 (amended): whenever the upload fails — transport failure, an error
HTTP status (4xx/5xx), or a non-success status sentinel in the body — the
Uploader signals an error which `main` surfaces to the user, and
`ai_confirmation_message` is not invoked for that action; in the
non-success-sentinel case (and the missing-`data` case) the error carries
the parsed response body for diagnostics. -/
theorem upload_failure_surfaced_composer_skipped :
    (∀ disc upl env api fn bytes e, (upload_to_gofile disc upl fn bytes).1 = Except.error e →
      (main_action disc upl env api fn bytes).outcome = UIOutcome.failure e ∧
      (main_action disc upl env api fn bytes).composerInvoked = false) ∧
    (∀ m, uploadBody (HttpOutcome.exn m) = Except.error (PyExc.requestException m)) ∧
    (∀ code body, statusRaises code = true →
      uploadBody (HttpOutcome.response code body) = Except.error (PyExc.httpError code)) ∧
    (∀ code fs, statusRaises code = false →
      (jsonEqStr ((List.lookup "status" fs).getD Json.null) "ok" = false ∨ hasKey fs "data" = false) →
      uploadBody (HttpOutcome.response code (some (Json.obj fs))) =
        Except.error (PyExc.uploadFailed (Json.obj fs))) := by
  refine ⟨?_, ?_, ?_, ?_⟩
  · intro disc upl env api fn bytes e h
    cases hu : upload_to_gofile disc upl fn bytes with
    | mk res req =>
      rw [hu] at h
      simp at h
      subst h
      simp [main_action, hu]
  · intro m
    rfl
  · intro code body hr
    simp [uploadBody, hr]
  · intro code fs hr hbad
    rcases hbad with hbad | hbad
    · simp [uploadBody, hr, dict_get, hbad]
    · by_cases hok : jsonEqStr ((List.lookup "status" fs).getD Json.null) "ok" = true
      · simp [uploadBody, hr, dict_get, hok, py_in, hbad]
      · simp at hok
        simp [uploadBody, hr, dict_get, hok]

theorem upload_failure_surfaced_composer_skipped_witness :
    (main_action discOkSrv1 uplStatusErr none (fun _ => ChatOutcome.exn "e")
        "deck.pdf" [1]).outcome =
      UIOutcome.failure (PyExc.uploadFailed (Json.obj [("status", Json.str "error")])) ∧
    (main_action discOkSrv1 uplStatusErr none (fun _ => ChatOutcome.exn "e")
        "deck.pdf" [1]).composerInvoked = false :=
  upload_failure_surfaced_composer_skipped.1 discOkSrv1 uplStatusErr none
    (fun _ => ChatOutcome.exn "e") "deck.pdf" [1]
    (PyExc.uploadFailed (Json.obj [("status", Json.str "error")])) rfl

/-- C7: raises-iff characterisation of discovery — `get_gofile_server`
returns a value exactly when the HTTP call came back (no transport error
or timeout), its status code is not an error code, and the JSON body is an
object with the success sentinel `"ok"` in its status field and an object
`data` field containing a `server` key; the value returned is exactly that
nested `data.server` field.  In every other case it signals an error. -/
theorem discovery_raises_iff (disc : HttpOutcome) (v : Json) :
    get_gofile_server disc = Except.ok v ↔
      (discoverySucceedsSpec disc = true ∧ serverFieldSpec disc = some v) := by
  cases disc with
  | exn m => simp [get_gofile_server, discoverySucceedsSpec, serverFieldSpec]
  | response code body =>
    by_cases hr : statusRaises code = true
    · simp [get_gofile_server, discoverySucceedsSpec, serverFieldSpec, hr]
    · simp only [Bool.not_eq_true] at hr
      cases body with
      | none => simp [get_gofile_server, discoverySucceedsSpec, serverFieldSpec, hr]
      | some j =>
        cases j with
        | null => simp [get_gofile_server, discoverySucceedsSpec, serverFieldSpec, hr, dict_get]
        | bool b => simp [get_gofile_server, discoverySucceedsSpec, serverFieldSpec, hr, dict_get]
        | num n => simp [get_gofile_server, discoverySucceedsSpec, serverFieldSpec, hr, dict_get]
        | str s => simp [get_gofile_server, discoverySucceedsSpec, serverFieldSpec, hr, dict_get]
        | arr xs => simp [get_gofile_server, discoverySucceedsSpec, serverFieldSpec, hr, dict_get]
        | obj fs =>
          cases hs : List.lookup "status" fs with
          | none =>
            simp [get_gofile_server, discoverySucceedsSpec, serverFieldSpec, hr, dict_get, hs,
              jsonEqStr]
          | some sj =>
            cases sj with
            | null =>
              simp [get_gofile_server, discoverySucceedsSpec, serverFieldSpec, hr, dict_get, hs,
                jsonEqStr]
            | bool b =>
              simp [get_gofile_server, discoverySucceedsSpec, serverFieldSpec, hr, dict_get, hs,
                jsonEqStr]
            | num n =>
              simp [get_gofile_server, discoverySucceedsSpec, serverFieldSpec, hr, dict_get, hs,
                jsonEqStr]
            | arr ys =>
              simp [get_gofile_server, discoverySucceedsSpec, serverFieldSpec, hr, dict_get, hs,
                jsonEqStr]
            | obj fs2 =>
              simp [get_gofile_server, discoverySucceedsSpec, serverFieldSpec, hr, dict_get, hs,
                jsonEqStr]
            | str s =>
              by_cases hsok : s = "ok"
              · subst hsok
                cases hd : List.lookup "data" fs with
                | none =>
                  simp [get_gofile_server, discoverySucceedsSpec, serverFieldSpec, hr, dict_get,
                    hs, hd, jsonEqStr, py_in, hasKey]
                | some dj =>
                  cases dj with
                  | null =>
                    simp [get_gofile_server, discoverySucceedsSpec, serverFieldSpec, hr, dict_get,
                      hs, hd, jsonEqStr, py_in, py_index, hasKey]
                  | bool b =>
                    simp [get_gofile_server, discoverySucceedsSpec, serverFieldSpec, hr, dict_get,
                      hs, hd, jsonEqStr, py_in, py_index, hasKey]
                  | num n =>
                    simp [get_gofile_server, discoverySucceedsSpec, serverFieldSpec, hr, dict_get,
                      hs, hd, jsonEqStr, py_in, py_index, hasKey]
                  | str s2 =>
                    cases hss : strContainsSub s2 "server" <;>
                      simp [get_gofile_server, discoverySucceedsSpec, serverFieldSpec, hr,
                        dict_get, hs, hd, jsonEqStr, py_in, py_index, hasKey, hss]
                  | arr ys =>
                    cases hb : ys.any (fun j => jsonEqStr j "server") <;>
                      simp only [get_gofile_server, discoverySucceedsSpec, serverFieldSpec, hr,
                        dict_get, hs, hd, py_in, py_index, hb] <;>
                      simp [jsonEqStr, hasKey, hd]
                  | obj ds =>
                    cases hsv : List.lookup "server" ds with
                    | none =>
                      simp [get_gofile_server, discoverySucceedsSpec, serverFieldSpec, hr,
                        dict_get, hs, hd, hsv, jsonEqStr, py_in, py_index, hasKey]
                    | some sv =>
                      simp [get_gofile_server, discoverySucceedsSpec, serverFieldSpec, hr,
                        dict_get, hs, hd, hsv, jsonEqStr, py_in, py_index, hasKey]
              · simp [get_gofile_server, discoverySucceedsSpec, serverFieldSpec, hr, dict_get,
                  hs, jsonEqStr, hsok]

theorem discovery_raises_iff_witness :
    get_gofile_server discOkSrv1 = Except.ok (Json.str "srv1") ↔
      (discoverySucceedsSpec discOkSrv1 = true ∧
        serverFieldSpec discOkSrv1 = some (Json.str "srv1")) :=
  discovery_raises_iff discOkSrv1 (Json.str "srv1")
